import Mathlib

/-!
Verification of the conversation-and-message client state manager of the
scandoq chat frontend.  The model below is a shallow embedding of the `Chat`
React component: its state hooks become the fields of `ChatState`, and each
event handler (`fetchConversations`, `fetchSuggestions`, `selectConversation`,
`createNewConversation`, `deleteConversation`, `saveTitle`, `sendMessage`)
becomes a pure function from the current state, the stored credential token
and the outcome of the network call to the next state together with effect
flags (whether a request was issued, whether a conversation reload and a
suggestion refresh were triggered).

JavaScript truthiness is modelled faithfully: `!token` is true for a missing
or empty string, `!currentConversationId` is true for `null` and `0`, and
`suggestionContent || input` falls back to `input` when `suggestionContent`
is absent or empty.
-/

namespace ScandoqChat

/-- Message role, from the `Message` interface: `'user' | 'assistant' | 'system'`. -/
inductive Role where
  | user
  | assistant
  | system
deriving DecidableEq, Repr

/-- `interface Message { id: number; role: ...; content: string }`. -/
structure Message where
  id : Nat
  role : Role
  content : String
deriving DecidableEq, Repr

/-- `interface Conversation { id: number; title: string; messages: Message[] }`.
The `messages` field is `Option`al because server create responses may omit
it; the code guards every read with `conversation.messages || []`. -/
structure Conversation where
  id : Nat
  title : String
  messages : Option (List Message)
deriving DecidableEq, Repr

/-- The state hooks of the `Chat` component. -/
structure ChatState where
  conversations : List Conversation
  currentConversationId : Option Nat
  messages : List Message
  input : String
  loading : Bool
  suggestions : List String
  editingConversationId : Option Nat
  editTitle : String
deriving DecidableEq, Repr

/-- Outcome of a network call: `success` is a 2xx response with parsed JSON
body, `failure` covers both a thrown network error and a non-ok response
(the code treats the two identically in every conversation flow). -/
inductive NetResult (α : Type) where
  | success (val : α)
  | failure
deriving DecidableEq, Repr

/-- Result of running one event handler: the next state plus the observable
effects (whether the HTTP request was issued, whether a full conversation
reload was triggered, whether a suggestion refresh was triggered). -/
structure OpResult where
  state : ChatState
  requestIssued : Bool
  reloadTriggered : Bool
  suggRefreshTriggered : Bool
deriving DecidableEq, Repr

/-- JS truthiness of `localStorage.getItem("token")`: `null` and `""` are falsy. -/
def tokenPresent : Option String → Bool
  | none => false
  | some s => s != ""

/-- JS truthiness of `currentConversationId : number | null`: `null` and `0` are falsy. -/
def truthyId : Option Nat → Bool
  | none => false
  | some n => n != 0

/-- JS `a || b` on `a : string | undefined`: falls back to `b` when `a` is
`undefined` or the empty string. -/
def jsOr : Option String → String → String
  | none, b => b
  | some s, b => if s = "" then b else s

/-- JS `s.trim()`: strips leading and trailing whitespace. -/
def jsTrim (s : String) : String :=
  String.mk (((s.data.dropWhile Char.isWhitespace).reverse.dropWhile Char.isWhitespace).reverse)

/-- `selectConversation(conversation)`: sets the active id and replaces the
message stream with `conversation.messages || []`. -/
def selectConversation (st : ChatState) (conversation : Conversation) : ChatState :=
  { st with
      currentConversationId := some conversation.id,
      messages := conversation.messages.getD [] }

/-- `fetchSuggestions()`: skips when the token is falsy; on an ok response
replaces the suggestion list with the parsed body; otherwise leaves state
unchanged. -/
def fetchSuggestions (st : ChatState) (token : Option String)
    (resp : NetResult (List String)) : OpResult :=
  if tokenPresent token = false then ⟨st, false, false, false⟩
  else
    match resp with
    | .success data => ⟨{ st with suggestions := data }, true, false, false⟩
    | .failure => ⟨st, true, false, false⟩

/-- `fetchConversations()`: skips when the token is falsy; on an ok response
replaces the conversation list with the parsed body and, when
`data.length > 0 && !currentConversationId`, selects `data[0]`; on failure
leaves state unchanged. -/
def fetchConversations (st : ChatState) (token : Option String)
    (resp : NetResult (List Conversation)) : OpResult :=
  if tokenPresent token = false then ⟨st, false, false, false⟩
  else
    match resp with
    | .success data =>
        let st1 := { st with conversations := data }
        if 0 < data.length ∧ truthyId st.currentConversationId = false then
          match data.head? with
          | some c => ⟨selectConversation st1 c, true, false, false⟩
          | none => ⟨st1, true, false, false⟩
        else ⟨st1, true, false, false⟩
    | .failure => ⟨st, true, false, false⟩

/-- `createNewConversation()`: reads the token but never checks it, so the
POST is always issued; on an ok response prepends the parsed conversation
and selects it; on failure leaves state unchanged. -/
def createNewConversation (st : ChatState) (_token : Option String)
    (resp : NetResult Conversation) : OpResult :=
  match resp with
  | .success newConv =>
      let st1 := { st with conversations := newConv :: st.conversations }
      ⟨selectConversation st1 newConv, true, false, false⟩
  | .failure => ⟨st, true, false, false⟩

/-- `deleteConversation(e, id)`: returns before any request unless
`window.confirm` is accepted; the token is read but never checked.  On an ok
response removes every list entry with the given id and, when the active id
strictly equals the deleted id, clears the active id and empties the message
stream; on failure leaves state unchanged. -/
def deleteConversation (st : ChatState) (id : Nat) (confirmed : Bool)
    (_token : Option String) (resp : NetResult Unit) : OpResult :=
  if confirmed = false then ⟨st, false, false, false⟩
  else
    match resp with
    | .success _ =>
        let st1 := { st with conversations := st.conversations.filter (fun c => c.id != id) }
        if st.currentConversationId = some id then
          ⟨{ st1 with currentConversationId := none, messages := [] }, true, false, false⟩
        else ⟨st1, true, false, false⟩
    | .failure => ⟨st, true, false, false⟩

/-- The per-entry update performed by `saveTitle` on an ok response:
`c.id === editingConversationId ? { ...c, title: editTitle } : c`. -/
def titleUpdate (editingId : Option Nat) (editTitle : String) (c : Conversation) :
    Conversation :=
  if some c.id = editingId then { c with title := editTitle } else c

/-- `saveTitle(e)`: returns when `editingConversationId` is falsy; the token
is read but never checked.  On an ok response maps `titleUpdate` over the
list and closes the edit session; on failure leaves state (including the
open edit session) unchanged. -/
def saveTitle (st : ChatState) (_token : Option String)
    (resp : NetResult Unit) : OpResult :=
  if truthyId st.editingConversationId = false then ⟨st, false, false, false⟩
  else
    match resp with
    | .success _ =>
        ⟨{ st with
            conversations :=
              st.conversations.map (titleUpdate st.editingConversationId st.editTitle),
            editingConversationId := none,
            editTitle := "" }, true, false, false⟩
    | .failure => ⟨st, true, false, false⟩

/-- `sendMessage(e, suggestionContent)`: resolves the content as
`suggestionContent || input`; returns before any request when the trimmed
content is empty or the active id is falsy.  Otherwise appends an optimistic
user message with id `Date.now()` (the `now` parameter), clears the input
and sets the pending flag; on an ok response appends the parsed assistant
message and triggers a conversation reload and a suggestion refresh; in all
cases the `finally` block clears the pending flag.  The token is read but
never checked. -/
def sendMessage (st : ChatState) (suggestionContent : Option String) (now : Nat)
    (_token : Option String) (resp : NetResult Message) : OpResult :=
  let contentToSend := jsOr suggestionContent st.input
  if jsTrim contentToSend = "" ∨ truthyId st.currentConversationId = false then
    ⟨st, false, false, false⟩
  else
    let userMessage : Message := ⟨now, Role.user, contentToSend⟩
    let st1 := { st with
        messages := st.messages ++ [userMessage],
        input := "",
        loading := true }
    match resp with
    | .success aiMessage =>
        ⟨{ st1 with messages := st1.messages ++ [aiMessage], loading := false },
          true, true, true⟩
    | .failure => ⟨{ st1 with loading := false }, true, false, false⟩

/-- The invariant of the conversation store: a non-null active id references
an element currently in the list. -/
def activeInList (st : ChatState) : Bool :=
  match st.currentConversationId with
  | none => true
  | some cid => st.conversations.any (fun c => c.id == cid)

/-- A sequence of `createNewConversation` calls that all succeed, folded over
the list of server-returned conversations. -/
def createSeq (tok : Option String) (st : ChatState) : List Conversation → ChatState
  | [] => st
  | c :: rest => createSeq tok (createNewConversation st tok (NetResult.success c)).state rest

/-- C10: `selectConversation` is total: it sets the active id to the
conversation's id and the message stream to exactly its messages, or to `[]`
when the `messages` field is absent, and never fails; selecting `x` then `y`
leaves exactly `y`'s known messages, never a mixture. -/
theorem select_total_and_overwrites (st : ChatState) (x y : Conversation) :
    selectConversation st y =
      { st with currentConversationId := some y.id, messages := y.messages.getD [] } ∧
    (y.messages = none → (selectConversation st y).messages = []) ∧
    (selectConversation (selectConversation st x) y).currentConversationId = some y.id ∧
    (selectConversation (selectConversation st x) y).messages = y.messages.getD [] := by
  refine ⟨rfl, ?_, rfl, rfl⟩
  intro h
  simp [selectConversation, h]

/-- Witness for C10 at a concrete create-style record with no `messages` field. -/
theorem select_total_and_overwrites_witness :
    (selectConversation ⟨[], none, [], "", false, [], none, ""⟩ ⟨3, "New Chat", none⟩).messages
      = [] :=
  (select_total_and_overwrites ⟨[], none, [], "", false, [], none, ""⟩
    ⟨2, "b", some []⟩ ⟨3, "New Chat", none⟩).2.1 rfl

/-- C5: a send with empty or whitespace-only resolved content, or with no
active conversation, is a silent no-op: the state is unchanged, no request is
issued, and no reload or suggestion refresh is triggered. -/
theorem send_noop_on_blank_or_inactive (st : ChatState) (sc : Option String)
    (now : Nat) (tok : Option String) (resp : NetResult Message)
    (h : jsTrim (jsOr sc st.input) = "" ∨ st.currentConversationId = none) :
    sendMessage st sc now tok resp = ⟨st, false, false, false⟩ := by
  unfold sendMessage
  rcases h with h | h
  · simp [h]
  · simp [h, truthyId]

/-- Witness for C5: sending with a whitespace-only input is a no-op. -/
theorem send_noop_on_blank_or_inactive_witness :
    sendMessage ⟨[], some 7, [], "   ", false, [], none, ""⟩ none 5 (some "t") NetResult.failure
      = ⟨⟨[], some 7, [], "   ", false, [], none, ""⟩, false, false, false⟩ :=
  send_noop_on_blank_or_inactive _ _ _ _ _ (Or.inl (by decide))

/-- C1: a send whose network request is issued and succeeds leaves the
message stream equal to the prior stream followed by the optimistic user
message (role `user`, the resolved content, id `Date.now()`) followed by the
server's assistant reply, and triggers both a full conversation-list reload
and a suggestion refresh. -/
theorem send_success_appends_and_triggers (st : ChatState) (sc : Option String)
    (now : Nat) (tok : Option String) (reply : Message)
    (h : (sendMessage st sc now tok (NetResult.success reply)).requestIssued = true) :
    (sendMessage st sc now tok (NetResult.success reply)).state.messages
        = st.messages ++ [⟨now, Role.user, jsOr sc st.input⟩, reply] ∧
    (sendMessage st sc now tok (NetResult.success reply)).reloadTriggered = true ∧
    (sendMessage st sc now tok (NetResult.success reply)).suggRefreshTriggered = true := by
  unfold sendMessage at h ⊢
  by_cases hc : jsTrim (jsOr sc st.input) = "" ∨ truthyId st.currentConversationId = false
  · simp [hc] at h
  · simp [hc]

/-- Witness for C1 at a concrete active conversation and content "Hello". -/
theorem send_success_appends_and_triggers_witness :
    (sendMessage ⟨[], some 7, [], "Hello", false, [], none, ""⟩ none 9 (some "t")
        (NetResult.success ⟨1, Role.assistant, "hi"⟩)).state.messages
      = [⟨9, Role.user, "Hello"⟩, ⟨1, Role.assistant, "hi"⟩] := by
  have h := send_success_appends_and_triggers ⟨[], some 7, [], "Hello", false, [], none, ""⟩
      none 9 (some "t") ⟨1, Role.assistant, "hi"⟩ (by decide)
  simpa using h.1

/-- C6: a send whose network request is issued and fails keeps the optimistic
user message in the stream (no rollback), clears the pending flag, and
appends no assistant message (and triggers neither a reload nor a suggestion
refresh). -/
theorem send_failure_keeps_optimistic (st : ChatState) (sc : Option String)
    (now : Nat) (tok : Option String)
    (h : (sendMessage st sc now tok NetResult.failure).requestIssued = true) :
    (sendMessage st sc now tok NetResult.failure).state.messages
        = st.messages ++ [⟨now, Role.user, jsOr sc st.input⟩] ∧
    (sendMessage st sc now tok NetResult.failure).state.loading = false ∧
    (sendMessage st sc now tok NetResult.failure).reloadTriggered = false ∧
    (sendMessage st sc now tok NetResult.failure).suggRefreshTriggered = false := by
  unfold sendMessage at h ⊢
  by_cases hc : jsTrim (jsOr sc st.input) = "" ∨ truthyId st.currentConversationId = false
  · simp [hc] at h
  · simp [hc]

/-- Witness for C6 at a concrete active conversation and content "Hello". -/
theorem send_failure_keeps_optimistic_witness :
    (sendMessage ⟨[], some 7, [], "Hello", false, [], none, ""⟩ none 9 (some "t")
        NetResult.failure).state.messages
      = [⟨9, Role.user, "Hello"⟩] := by
  have h := send_failure_keeps_optimistic ⟨[], some 7, [], "Hello", false, [], none, ""⟩
      none 9 (some "t") (by decide)
  simpa using h.1

/-- C4: a successful load replaces the entire local list with the
server-returned list in server order; if no conversation was active and the
fetched list is non-empty, the first element is selected and its messages
populate the stream; on failure the whole state is left unchanged. -/
theorem load_replaces_list_and_selects_first (st : ChatState) (tok : Option String)
    (data : List Conversation) (h : tokenPresent tok = true) :
    (fetchConversations st tok (NetResult.success data)).state.conversations = data ∧
    (st.currentConversationId = none →
      ∀ c rest, data = c :: rest →
        (fetchConversations st tok (NetResult.success data)).state.currentConversationId
            = some c.id ∧
        (fetchConversations st tok (NetResult.success data)).state.messages
            = c.messages.getD []) ∧
    (fetchConversations st tok NetResult.failure).state = st := by
  refine ⟨?_, ?_, ?_⟩
  · by_cases hsel : 0 < data.length ∧ truthyId st.currentConversationId = false
    · rcases data with _ | ⟨c, rest⟩
      · simp at hsel
      · simp [fetchConversations, h, hsel, selectConversation]
    · simp [fetchConversations, h, hsel]
  · intro hcur c rest hdata
    subst hdata
    simp [fetchConversations, h, hcur, truthyId, selectConversation]
  · simp [fetchConversations, h]

/-- Witness for C4 at a concrete state with no active conversation. -/
theorem load_replaces_list_and_selects_first_witness :
    (fetchConversations ⟨[], none, [], "", false, [], none, ""⟩ (some "t")
        (NetResult.success [⟨5, "a", some [⟨1, Role.user, "m"⟩]⟩])).state.currentConversationId
      = some 5 := by
  have h := load_replaces_list_and_selects_first ⟨[], none, [], "", false, [], none, ""⟩
      (some "t") [⟨5, "a", some [⟨1, Role.user, "m"⟩]⟩] (by decide)
  exact (h.2.1 rfl ⟨5, "a", some [⟨1, Role.user, "m"⟩]⟩ [] rfl).1

/-- Conversation lists after a run of successful creates: each new
conversation is prepended, so the final order is the reverse of creation
order in front of the original list. -/
theorem createSeq_conversations (tok : Option String) (st : ChatState)
    (l : List Conversation) :
    (createSeq tok st l).conversations = l.reverse ++ st.conversations := by
  induction l generalizing st with
  | nil => simp [createSeq]
  | cons c rest ih =>
      rw [createSeq, ih]
      simp [createNewConversation, selectConversation]

/-- C7: a successful create prepends the new conversation and selects it; a
run of successful creates yields reverse-chronological-by-creation order
(most recent first); a failed create leaves the state unchanged; the next
successful load re-adopts server order. -/
theorem create_prepends_and_selects (st : ChatState) (tok : Option String)
    (newConv : Conversation) (l : List Conversation) (data : List Conversation)
    (htok : tokenPresent tok = true) :
    (createNewConversation st tok (NetResult.success newConv)).state.conversations
        = newConv :: st.conversations ∧
    (createNewConversation st tok (NetResult.success newConv)).state.currentConversationId
        = some newConv.id ∧
    (createNewConversation st tok NetResult.failure).state = st ∧
    (createSeq tok st l).conversations = l.reverse ++ st.conversations ∧
    (fetchConversations st tok (NetResult.success data)).state.conversations = data := by
  refine ⟨rfl, rfl, rfl, createSeq_conversations tok st l, ?_⟩
  by_cases hsel : 0 < data.length ∧ truthyId st.currentConversationId = false
  · rcases data with _ | ⟨c, rest⟩
    · simp at hsel
    · simp [fetchConversations, htok, hsel, selectConversation]
  · simp [fetchConversations, htok, hsel]

/-- Witness for C7 at a concrete two-create run. -/
theorem create_prepends_and_selects_witness :
    (createSeq (some "t") ⟨[⟨1, "old", some []⟩], some 1, [], "", false, [], none, ""⟩
        [⟨2, "New Chat", none⟩, ⟨3, "New Chat", none⟩]).conversations
      = [⟨3, "New Chat", none⟩, ⟨2, "New Chat", none⟩, ⟨1, "old", some []⟩] := by
  have h := create_prepends_and_selects
      ⟨[⟨1, "old", some []⟩], some 1, [], "", false, [], none, ""⟩ (some "t")
      ⟨2, "New Chat", none⟩ [⟨2, "New Chat", none⟩, ⟨3, "New Chat", none⟩] [] (by decide)
  simpa using h.2.2.2.1

/-- C8: a declined confirmation means no request and a fully unchanged state;
with confirmation accepted, a successful delete removes the entry from the
list and, when the deleted id was active, clears the active id and empties
the message stream; a failed delete leaves the state unchanged. -/
theorem delete_confirm_guard_and_cleanup (st : ChatState) (id : Nat)
    (tok : Option String) :
    (∀ resp, deleteConversation st id false tok resp = ⟨st, false, false, false⟩) ∧
    (deleteConversation st id true tok (NetResult.success ())).requestIssued = true ∧
    (deleteConversation st id true tok (NetResult.success ())).state.conversations
        = st.conversations.filter (fun c => c.id != id) ∧
    (st.currentConversationId = some id →
      (deleteConversation st id true tok (NetResult.success ())).state.currentConversationId
          = none ∧
      (deleteConversation st id true tok (NetResult.success ())).state.messages = []) ∧
    (deleteConversation st id true tok NetResult.failure).state = st := by
  by_cases hcur : st.currentConversationId = some id
  · refine ⟨fun resp => rfl, ?_, ?_, fun _ => ⟨?_, ?_⟩, rfl⟩ <;>
      simp [deleteConversation, hcur]
  · refine ⟨fun resp => rfl, ?_, ?_, fun hc => absurd hc hcur, rfl⟩ <;>
      simp [deleteConversation, hcur]

/-- Witness for C8: deleting the active conversation clears the active id. -/
theorem delete_confirm_guard_and_cleanup_witness :
    (deleteConversation ⟨[⟨7, "t", some []⟩], some 7, [⟨1, Role.user, "m"⟩], "", false, [], none, ""⟩
        7 true (some "t") (NetResult.success ())).state.currentConversationId = none := by
  have h := delete_confirm_guard_and_cleanup
      ⟨[⟨7, "t", some []⟩], some 7, [⟨1, Role.user, "m"⟩], "", false, [], none, ""⟩ 7 (some "t")
  exact (h.2.2.2.1 rfl).1

/-- C9: a rename whose request is issued and succeeds maps `titleUpdate`
over the list; `titleUpdate` preserves every entry's id and messages, leaves
non-matching entries fully unchanged and replaces only the title of the
matching entry; the active id and message stream are untouched; a failed
rename leaves the state (including the local title) unchanged. -/
theorem rename_updates_only_title (st : ChatState) (tok : Option String)
    (h : (saveTitle st tok (NetResult.success ())).requestIssued = true) :
    (saveTitle st tok (NetResult.success ())).state.conversations
        = st.conversations.map (titleUpdate st.editingConversationId st.editTitle) ∧
    (∀ c : Conversation,
      (titleUpdate st.editingConversationId st.editTitle c).id = c.id ∧
      (titleUpdate st.editingConversationId st.editTitle c).messages = c.messages ∧
      (some c.id ≠ st.editingConversationId →
        titleUpdate st.editingConversationId st.editTitle c = c) ∧
      (some c.id = st.editingConversationId →
        titleUpdate st.editingConversationId st.editTitle c = { c with title := st.editTitle })) ∧
    (saveTitle st tok (NetResult.success ())).state.currentConversationId
        = st.currentConversationId ∧
    (saveTitle st tok (NetResult.success ())).state.messages = st.messages ∧
    (saveTitle st tok NetResult.failure).state = st := by
  unfold saveTitle at h ⊢
  by_cases he : truthyId st.editingConversationId = false
  · simp [he] at h
  · simp only [he]
    refine ⟨by simp, ?_, by simp, by simp, by simp⟩
    intro c
    unfold titleUpdate
    by_cases hid : some c.id = st.editingConversationId
    · simp [hid]
    · simp [hid]

/-- Witness for C9 at a concrete open edit session. -/
theorem rename_updates_only_title_witness :
    (saveTitle ⟨[⟨5, "old", some []⟩], some 5, [], "", false, [], some 5, "neu"⟩ (some "t")
        (NetResult.success ())).state.conversations
      = [⟨5, "neu", some []⟩] := by
  have h := rename_updates_only_title
      ⟨[⟨5, "old", some []⟩], some 5, [], "", false, [], some 5, "neu"⟩ (some "t") (by decide)
  simpa [titleUpdate] using h.1

/-- C2 counterexample: a successful load can break the active-id-in-list
invariant.  From a state satisfying the invariant (active id 7, list
containing id 7), a load whose server response no longer contains id 7 keeps
the active id at 7 while replacing the list, leaving the active id dangling. -/
theorem load_breaks_active_invariant :
    activeInList ⟨[⟨7, "t", some []⟩], some 7, [], "", false, [], none, ""⟩ = true ∧
    (fetchConversations ⟨[⟨7, "t", some []⟩], some 7, [], "", false, [], none, ""⟩ (some "tok")
        (NetResult.success [])).state.currentConversationId = some 7 ∧
    (fetchConversations ⟨[⟨7, "t", some []⟩], some 7, [], "", false, [], none, ""⟩ (some "tok")
        (NetResult.success [])).state.conversations = [] ∧
    activeInList (fetchConversations ⟨[⟨7, "t", some []⟩], some 7, [], "", false, [], none, ""⟩
        (some "tok") (NetResult.success [])).state = false := by
  decide

/-- `titleUpdate` never changes a conversation's id. -/
theorem titleUpdate_preserves_id (e : Option Nat) (t : String) (c : Conversation) :
    (titleUpdate e t c).id = c.id := by
  unfold titleUpdate
  split <;> rfl

/-- C2 amended: every operation except load preserves the active-id-in-list
invariant (select restricted to members of the list, as the component invokes
it); load preserves it provided the fetched list contains the active id, if
any; and deleting the active conversation clears the active id. -/
theorem ops_preserve_active_invariant (st : ChatState)
    (hinv : activeInList st = true) :
    (∀ c, c ∈ st.conversations → activeInList (selectConversation st c) = true) ∧
    (∀ tok resp, activeInList (createNewConversation st tok resp).state = true) ∧
    (∀ id conf tok resp, activeInList (deleteConversation st id conf tok resp).state = true) ∧
    (∀ tok resp, activeInList (saveTitle st tok resp).state = true) ∧
    (∀ sc now tok resp, activeInList (sendMessage st sc now tok resp).state = true) ∧
    (∀ tok resp, activeInList (fetchSuggestions st tok resp).state = true) ∧
    (∀ tok data, (∀ cid, st.currentConversationId = some cid →
        data.any (fun c => c.id == cid) = true) →
      activeInList (fetchConversations st tok (NetResult.success data)).state = true) ∧
    (∀ tok, activeInList (fetchConversations st tok NetResult.failure).state = true) ∧
    (∀ id tok, st.currentConversationId = some id →
      (deleteConversation st id true tok (NetResult.success ())).state.currentConversationId
          = none) := by
  refine ⟨?_, ?_, ?_, ?_, ?_, ?_, ?_, ?_, ?_⟩
  · intro c hc
    have hany : st.conversations.any (fun x => x.id == c.id) = true :=
      List.any_eq_true.2 ⟨c, hc, by simp⟩
    simpa [selectConversation, activeInList] using hany
  · intro tok resp
    cases resp with
    | success newConv => simp [createNewConversation, selectConversation, activeInList]
    | failure => simpa [createNewConversation] using hinv
  · intro id conf tok resp
    cases conf with
    | false => simpa [deleteConversation] using hinv
    | true =>
        cases resp with
        | failure => simpa [deleteConversation] using hinv
        | success u =>
            by_cases hcur : st.currentConversationId = some id
            · simp [deleteConversation, hcur, activeInList]
            · rcases hc : st.currentConversationId with _ | cid
              · simp [deleteConversation, hcur, activeInList, hc]
              · have hne : cid ≠ id := fun hEq => hcur (by rw [hc, hEq])
                have hinv' : st.conversations.any (fun x => x.id == cid) = true := by
                  simpa [activeInList, hc] using hinv
                obtain ⟨c, hcmem, hcid⟩ := List.any_eq_true.1 hinv'
                have hcid' : c.id = cid := by simpa using hcid
                have hkeep : (c.id != id) = true := by simp [hcid', hne]
                have hany : (st.conversations.filter (fun x => x.id != id)).any
                    (fun x => x.id == cid) = true :=
                  List.any_eq_true.2 ⟨c, List.mem_filter.2 ⟨hcmem, hkeep⟩, hcid⟩
                simpa [deleteConversation, hne, activeInList, hc] using hany
  · intro tok resp
    by_cases he : truthyId st.editingConversationId = false
    · simpa [saveTitle, he] using hinv
    · cases resp with
      | failure => simpa [saveTitle, he] using hinv
      | success u =>
          rcases hc : st.currentConversationId with _ | cid
          · simp [saveTitle, he, activeInList, hc]
          · have hinv' : st.conversations.any (fun x => x.id == cid) = true := by
              simpa [activeInList, hc] using hinv
            obtain ⟨c, hcmem, hcid⟩ := List.any_eq_true.1 hinv'
            have hany : (st.conversations.map
                (titleUpdate st.editingConversationId st.editTitle)).any
                (fun x => x.id == cid) = true :=
              List.any_eq_true.2 ⟨titleUpdate st.editingConversationId st.editTitle c,
                List.mem_map_of_mem _ hcmem,
                by simpa [titleUpdate_preserves_id] using hcid⟩
            simpa [saveTitle, he, activeInList, hc] using hany
  · intro sc now tok resp
    by_cases hcond : jsTrim (jsOr sc st.input) = "" ∨ truthyId st.currentConversationId = false
    · simpa [sendMessage, hcond] using hinv
    · cases resp with
      | success reply => simpa [sendMessage, hcond, activeInList] using hinv
      | failure => simpa [sendMessage, hcond, activeInList] using hinv
  · intro tok resp
    by_cases ht : tokenPresent tok = false
    · simpa [fetchSuggestions, ht] using hinv
    · cases resp with
      | success d => simpa [fetchSuggestions, ht, activeInList] using hinv
      | failure => simpa [fetchSuggestions, ht] using hinv
  · intro tok data hdata
    by_cases ht : tokenPresent tok = false
    · simpa [fetchConversations, ht] using hinv
    · rcases hc : st.currentConversationId with _ | cid
      · rcases data with _ | ⟨c, rest⟩
        · simp [fetchConversations, ht, activeInList, hc, truthyId]
        · simp [fetchConversations, ht, activeInList, hc, truthyId, selectConversation]
      · by_cases hz : cid = 0
        · subst hz
          rcases data with _ | ⟨c, rest⟩
          · have := hdata 0 hc
            simp at this
          · simp [fetchConversations, ht, activeInList, hc, truthyId, selectConversation]
        · have hany := hdata cid hc
          simpa [fetchConversations, ht, activeInList, hc, truthyId, hz] using hany
  · intro tok
    by_cases ht : tokenPresent tok = false
    · simpa [fetchConversations, ht] using hinv
    · simpa [fetchConversations, ht] using hinv
  · intro id tok hcur
    simp [deleteConversation, hcur]

/-- Witness for the amended C2: deleting the active conversation of a
concrete invariant-satisfying state clears the active id. -/
theorem ops_preserve_active_invariant_witness :
    (deleteConversation ⟨[⟨7, "t", some []⟩], some 7, [], "", false, [], none, ""⟩ 7 true none
        (NetResult.success ())).state.currentConversationId = none := by
  have h := ops_preserve_active_invariant
      ⟨[⟨7, "t", some []⟩], some 7, [], "", false, [], none, ""⟩ (by decide)
  exact h.2.2.2.2.2.2.2.2 7 none rfl

/-- C3 counterexample: with no stored token, `createNewConversation` and a
precondition-satisfying `sendMessage` still issue their requests (the token
is read but never checked), refuting "no network request is issued". -/
theorem create_and_send_issue_request_without_token :
    (createNewConversation ⟨[], none, [], "", false, [], none, ""⟩ none
        NetResult.failure).requestIssued = true ∧
    (sendMessage ⟨[], some 7, [], "Hello", false, [], none, ""⟩ none 9 none
        NetResult.failure).requestIssued = true := by
  decide

/-- C3 amended: only load and suggestion refresh are skipped silently when
the stored token is missing (no request issued, state unchanged); create,
confirmed delete, rename with an open edit session, and send with satisfied
preconditions issue their requests even without a token. -/
theorem missing_token_skips_only_fetches (st : ChatState) :
    (∀ resp, fetchConversations st none resp = ⟨st, false, false, false⟩) ∧
    (∀ resp, fetchSuggestions st none resp = ⟨st, false, false, false⟩) ∧
    (∀ resp, (createNewConversation st none resp).requestIssued = true) ∧
    (∀ id resp, (deleteConversation st id true none resp).requestIssued = true) ∧
    (∀ resp, truthyId st.editingConversationId = true →
        (saveTitle st none resp).requestIssued = true) ∧
    (∀ sc now resp, jsTrim (jsOr sc st.input) ≠ "" →
        truthyId st.currentConversationId = true →
        (sendMessage st sc now none resp).requestIssued = true) := by
  refine ⟨fun resp => rfl, fun resp => rfl, ?_, ?_, ?_, ?_⟩
  · intro resp
    cases resp <;> rfl
  · intro id resp
    cases resp with
    | success u => by_cases hcur : st.currentConversationId = some id <;>
        simp [deleteConversation, hcur]
    | failure => rfl
  · intro resp he
    cases resp <;> simp [saveTitle, he]
  · intro sc now resp h1 h2
    cases resp <;> simp [sendMessage, h1, h2]

/-- Witness for the amended C3: a concrete valid send with no token still
issues its request. -/
theorem missing_token_skips_only_fetches_witness :
    (sendMessage ⟨[], some 7, [], "Hi", false, [], none, ""⟩ none 3 none
        NetResult.failure).requestIssued = true := by
  have h := missing_token_skips_only_fetches ⟨[], some 7, [], "Hi", false, [], none, ""⟩
  exact h.2.2.2.2.2 none 3 NetResult.failure (by decide) (by decide)

end ScandoqChat
